import Mathlib

/-!
Shallow embedding of `python/cuml/multiclass/one_vs_one.py`:
`OneVsOneClassifier`, a wrapper around scikit-learn's class of the same
name that converts cuML-supported array representations to numpy before
delegating, and converts results back to the caller's output type.

The wrapped scikit-learn library is an opaque external collaborator and is
modelled by arbitrary functions (`SkLib`).  The cuML utilities
`input_to_host_array`, `using_output_type`, `_to_output` and the
estimator's `_get_output_type` live outside the provided source tree and
are modelled from the specification's description of them.
-/

namespace OneVsOne

/-- In-memory array representations supported by cuML, plus a tag for an
unrecognized input type (on which conversion fails). -/
inductive Rep where
  | numpy
  | cupy
  | numba
  | cudf
  | pandas
  | unknown
  deriving DecidableEq, Repr

/-- A representation is supported when the conversion utilities recognize
it. -/
def Rep.supported : Rep → Bool
  | .unknown => false
  | _ => true

/-- An array: a representation tag plus its (abstract, representation
independent) data. -/
structure Arr where
  rep : Rep
  data : List Int
  deriving DecidableEq, Repr

/-- Errors raised by the collaborators: the array-conversion utility, the
output-type query on the estimator, and the wrapped scikit-learn library
(including its not-fitted error). -/
inductive Err where
  | convError
  | notFittedError
  | otherError (code : Nat)
  deriving DecidableEq, Repr

/-- Modelled from the spec: `cuml.common.input_to_host_array` — "given an
array in any supported representation, returns it converted to canonical
host representation (plus provenance metadata this adapter discards)";
errors on an unsupported input representation.  The 5-tuple mirrors the
Python return value `(array, n_rows, n_cols, dtype, ...)`. -/
def input_to_host_array (a : Arr) :
    Except Err (Arr × Nat × Nat × Nat × Nat) :=
  if a.rep.supported then
    Except.ok ({ rep := Rep.numpy, data := a.data }, a.data.length, 1, 0, 0)
  else
    Except.error Err.convError

/-- Modelled from the spec: `_to_output` from `one_vs_rest.py` — "given a
canonical-representation array/value and a target representation tag,
returns the value converted to that representation". -/
def _to_output (a : Arr) (t : Rep) : Arr :=
  { rep := t, data := a.data }

/-- The host-representation version of an array (what the conversion
utility produces for a supported input). -/
def toHost (a : Arr) : Arr :=
  { rep := Rep.numpy, data := a.data }

/-- An event recording one delegation to the wrapped scikit-learn library:
the arrays handed over and the process-wide output mode in force at the
moment of the call. -/
inductive Event where
  | fitCall (X y : Arr) (mode : Rep)
  | predictCall (X : Arr) (mode : Rep)
  | decisionCall (X : Arr) (mode : Rep)
  deriving DecidableEq, Repr

/-- The process-wide mutable state: cuML's global preferred output type,
plus a trace of the delegations made to the wrapped library (newest
first), which lets us speak about what the wrapped library observed. -/
structure GState where
  outputType : Rep
  trace : List Event
  deriving DecidableEq, Repr

/-- A stateful, fallible computation over the process-wide state. -/
def M (α : Type) : Type :=
  GState → Except Err α × GState

/-- Modelled from the spec: `cuml.common.memory_utils.using_output_type` —
"provides the scoped acquisition/guaranteed-release mechanism for the
process-wide preferred-output-representation setting": saves the current
global output type, sets it to `t`, runs the body, and restores the saved
value on every exit path (normal return or raised error). -/
def using_output_type {α : Type} (t : Rep) (body : M α) : M α := fun s =>
  let saved := s.outputType
  let r := body { s with outputType := t }
  (r.1, { r.2 with outputType := saved })

/-- The wrapped scikit-learn library: opaque training, prediction and
decision-scoring procedures over host arrays, with `Model` its opaque
fitted-model state. -/
structure SkLib (Model : Type) where
  skFit : Arr → Arr → Except Err Model
  skPredict : Model → Arr → Except Err Arr
  skDecision : Model → Arr → Except Err Arr

/-- The wrapped estimator's stored output-type preference: either a fixed
representation or "input" (mirror the representation of the query's
argument). -/
inductive Pref where
  | fixed (t : Rep)
  | input
  deriving DecidableEq, Repr

/-- The inner estimator handed to the classifier: its stored output-type
preference, and an optional error its output-type query raises (for
example because the estimator is unfitted). -/
structure Estimator where
  pref : Pref
  otErr : Option Err
  deriving DecidableEq, Repr

/-- Modelled from the spec: the estimator's `_get_output_type` query — "an
output-type-preference query used by `predict`/`decision_function`",
"often inferred from the original input's format or from the fitted
estimator's stored preference"; it may raise. -/
def Estimator.get_output_type (est : Estimator) (X : Arr) : Except Err Rep :=
  match est.otErr with
  | some e => Except.error e
  | none =>
    match est.pref with
    | .fixed t => Except.ok t
    | .input => Except.ok X.rep

/-- The adapter: holds the wrapped scikit-learn implementation, the inner
estimator, and the fitted-model state owned by the wrapped library. -/
structure OneVsOneClassifier (Model : Type) where
  lib : SkLib Model
  estimator : Estimator
  model : Option Model

namespace OneVsOneClassifier

variable {Model : Type}

/-- Delegation to `sklearn.multiclass.OneVsOneClassifier.fit`: records the
call (with the current output mode) in the trace and returns the same
classifier instance with the fitted model stored, or the wrapped
library's error. -/
def super_fit (c : OneVsOneClassifier Model) (Xh yh : Arr) :
    M (OneVsOneClassifier Model) := fun s =>
  ((match c.lib.skFit Xh yh with
    | .error e => Except.error e
    | .ok m => Except.ok { c with model := some m }),
   { s with trace := Event.fitCall Xh yh s.outputType :: s.trace })

/-- What `sklearn.multiclass.OneVsOneClassifier.predict` returns: the
not-fitted error before `fit`, otherwise the wrapped prediction. -/
def wrapped_predict (c : OneVsOneClassifier Model) (Xh : Arr) :
    Except Err Arr :=
  match c.model with
  | none => Except.error Err.notFittedError
  | some m => c.lib.skPredict m Xh

/-- What `sklearn.multiclass.OneVsOneClassifier.decision_function`
returns: the not-fitted error before `fit`, otherwise the wrapped
scores. -/
def wrapped_decision (c : OneVsOneClassifier Model) (Xh : Arr) :
    Except Err Arr :=
  match c.model with
  | none => Except.error Err.notFittedError
  | some m => c.lib.skDecision m Xh

/-- Delegation to the wrapped `predict`, recording the call and the output
mode in force in the trace. -/
def super_predict (c : OneVsOneClassifier Model) (Xh : Arr) : M Arr :=
  fun s =>
    (c.wrapped_predict Xh,
     { s with trace := Event.predictCall Xh s.outputType :: s.trace })

/-- Delegation to the wrapped `decision_function`, recording the call and
the output mode in force in the trace. -/
def super_decision (c : OneVsOneClassifier Model) (Xh : Arr) : M Arr :=
  fun s =>
    (c.wrapped_decision Xh,
     { s with trace := Event.decisionCall Xh s.outputType :: s.trace })

/-- `OneVsOneClassifier.fit`: convert `X` then `y` to host arrays,
delegate to the wrapped `fit` under `using_output_type('numpy')`, return
the wrapped result unchanged. -/
def fit (c : OneVsOneClassifier Model) (X y : Arr) :
    M (OneVsOneClassifier Model) := fun s =>
  match input_to_host_array X with
  | .error e => (Except.error e, s)
  | .ok (Xh, _, _, _, _) =>
    match input_to_host_array y with
    | .error e => (Except.error e, s)
    | .ok (yh, _, _, _, _) =>
      using_output_type Rep.numpy (c.super_fit Xh yh) s

/-- `OneVsOneClassifier.predict`: query the estimator's output type on the
original `X`, convert `X` to a host array, delegate to the wrapped
`predict`, and convert the predictions to the queried output type. -/
def predict (c : OneVsOneClassifier Model) (X : Arr) : M Arr := fun s =>
  match c.estimator.get_output_type X with
  | .error e => (Except.error e, s)
  | .ok out_type =>
    match input_to_host_array X with
    | .error e => (Except.error e, s)
    | .ok (Xh, _, _, _, _) =>
      match c.super_predict Xh s with
      | (.error e, s1) => (Except.error e, s1)
      | (.ok preds, s1) => (Except.ok (_to_output preds out_type), s1)

/-- `OneVsOneClassifier.decision_function`: query the estimator's output
type on the original `X`, convert `X` to a host array, delegate to the
wrapped `decision_function`, and convert the scores to the queried output
type. -/
def decision_function (c : OneVsOneClassifier Model) (X : Arr) :
    M Arr := fun s =>
  match c.estimator.get_output_type X with
  | .error e => (Except.error e, s)
  | .ok out_type =>
    match input_to_host_array X with
    | .error e => (Except.error e, s)
    | .ok (Xh, _, _, _, _) =>
      match c.super_decision Xh s with
      | (.error e, s1) => (Except.error e, s1)
      | (.ok df, s1) => (Except.ok (_to_output df out_type), s1)

end OneVsOneClassifier

/-- The arrays an event handed to the wrapped library. -/
def Event.args : Event → List Arr
  | .fitCall X y _ => [X, y]
  | .predictCall X _ => [X]
  | .decisionCall X _ => [X]

/-- The process-wide output mode in force when the event's delegation
happened. -/
def Event.mode : Event → Rep
  | .fitCall _ _ m => m
  | .predictCall _ m => m
  | .decisionCall _ m => m

/-- A concrete wrapped library used to exercise the theorems: training
always succeeds and prediction/decision echo the input data as a host
array. -/
def testLib : SkLib Nat where
  skFit := fun _ _ => Except.ok 0
  skPredict := fun _ X => Except.ok { rep := Rep.numpy, data := X.data }
  skDecision := fun _ X => Except.ok { rep := Rep.numpy, data := X.data }

/-- A concrete inner estimator whose output-type preference mirrors the
input. -/
def testEstInput : Estimator := { pref := Pref.input, otErr := none }

/-- A concrete inner estimator whose output-type query raises. -/
def testEstErr : Estimator :=
  { pref := Pref.input, otErr := some (Err.otherError 7) }

/-- The array-conversion utility accepts the array (returns some
converted result). -/
def convOk (a : Arr) : Prop :=
  ∃ r, input_to_host_array a = Except.ok r

/-- A concrete unfitted adapter. -/
def testClf : OneVsOneClassifier Nat :=
  { lib := testLib, estimator := testEstInput, model := none }

/-- The concrete adapter after a successful fit. -/
def testClfFitted : OneVsOneClassifier Nat :=
  { lib := testLib, estimator := testEstInput, model := some 0 }

/-- A concrete fitted adapter whose estimator's output-type query
raises. -/
def testClfErr : OneVsOneClassifier Nat :=
  { lib := testLib, estimator := testEstErr, model := some 0 }

/-- A concrete initial global state whose output mode is not the
canonical one. -/
def s0 : GState := { outputType := Rep.cupy, trace := [] }

/-- A concrete device-resident feature matrix. -/
def XC : Arr := { rep := Rep.cupy, data := [1, 2] }

/-- The global state after fitting the concrete adapter on `XC`, `yC`
from `s0`: the output mode is restored and the trace records one
delegated fit on the host-converted arrays under numpy mode. -/
def sFit : GState :=
  { outputType := Rep.cupy,
    trace := [Event.fitCall { rep := Rep.numpy, data := [1, 2] }
      { rep := Rep.numpy, data := [0, 1] } Rep.numpy] }

/-- A concrete data-frame label vector. -/
def yC : Arr := { rep := Rep.cudf, data := [0, 1] }

section Lemmas

variable {Model : Type}

lemma input_to_host_array_eq_ok (a : Arr) (h : a.rep.supported = true) :
    input_to_host_array a = Except.ok (toHost a, a.data.length, 1, 0, 0) := by
  simp [input_to_host_array, toHost, h]

lemma input_to_host_array_eq_error (a : Arr) (h : a.rep.supported = false) :
    input_to_host_array a = Except.error Err.convError := by
  simp [input_to_host_array, h]

open OneVsOneClassifier in
lemma fit_eq_of_supported (c : OneVsOneClassifier Model) (X y : Arr)
    (s : GState) (hX : X.rep.supported = true) (hy : y.rep.supported = true) :
    fit c X y s =
      ((match c.lib.skFit (toHost X) (toHost y) with
        | .error e => Except.error e
        | .ok m => Except.ok { c with model := some m }),
       { s with
          trace := Event.fitCall (toHost X) (toHost y) Rep.numpy :: s.trace }) := by
  simp [fit, input_to_host_array_eq_ok, hX, hy, using_output_type, super_fit]

open OneVsOneClassifier in
lemma fit_eq_of_X_unsupported (c : OneVsOneClassifier Model) (X y : Arr)
    (s : GState) (hX : X.rep.supported = false) :
    fit c X y s = (Except.error Err.convError, s) := by
  simp [fit, input_to_host_array_eq_error, hX]

open OneVsOneClassifier in
lemma fit_eq_of_y_unsupported (c : OneVsOneClassifier Model) (X y : Arr)
    (s : GState) (hX : X.rep.supported = true) (hy : y.rep.supported = false) :
    fit c X y s = (Except.error Err.convError, s) := by
  simp [fit, input_to_host_array_eq_ok, input_to_host_array_eq_error, hX, hy]

open OneVsOneClassifier in
lemma predict_eq_of_ok (c : OneVsOneClassifier Model) (X : Arr) (s : GState)
    (t : Rep) (hot : c.estimator.get_output_type X = Except.ok t)
    (hX : X.rep.supported = true) :
    predict c X s =
      ((match c.wrapped_predict (toHost X) with
        | .error e => Except.error e
        | .ok p => Except.ok (_to_output p t)),
       { s with
          trace := Event.predictCall (toHost X) s.outputType :: s.trace }) := by
  simp [predict, hot, input_to_host_array_eq_ok, hX, super_predict]
  cases c.wrapped_predict (toHost X) <;> simp

open OneVsOneClassifier in
lemma predict_eq_of_ot_error (c : OneVsOneClassifier Model) (X : Arr)
    (s : GState) (e : Err)
    (hot : c.estimator.get_output_type X = Except.error e) :
    predict c X s = (Except.error e, s) := by
  simp [predict, hot]

open OneVsOneClassifier in
lemma predict_eq_of_unsupported (c : OneVsOneClassifier Model) (X : Arr)
    (s : GState) (t : Rep)
    (hot : c.estimator.get_output_type X = Except.ok t)
    (hX : X.rep.supported = false) :
    predict c X s = (Except.error Err.convError, s) := by
  simp [predict, hot, input_to_host_array_eq_error, hX]

open OneVsOneClassifier in
lemma decision_eq_of_ok (c : OneVsOneClassifier Model) (X : Arr) (s : GState)
    (t : Rep) (hot : c.estimator.get_output_type X = Except.ok t)
    (hX : X.rep.supported = true) :
    decision_function c X s =
      ((match c.wrapped_decision (toHost X) with
        | .error e => Except.error e
        | .ok p => Except.ok (_to_output p t)),
       { s with
          trace := Event.decisionCall (toHost X) s.outputType :: s.trace }) := by
  simp [decision_function, hot, input_to_host_array_eq_ok, hX, super_decision]
  cases c.wrapped_decision (toHost X) <;> simp

open OneVsOneClassifier in
lemma decision_eq_of_ot_error (c : OneVsOneClassifier Model) (X : Arr)
    (s : GState) (e : Err)
    (hot : c.estimator.get_output_type X = Except.error e) :
    decision_function c X s = (Except.error e, s) := by
  simp [decision_function, hot]

open OneVsOneClassifier in
lemma decision_eq_of_unsupported (c : OneVsOneClassifier Model) (X : Arr)
    (s : GState) (t : Rep)
    (hot : c.estimator.get_output_type X = Except.ok t)
    (hX : X.rep.supported = false) :
    decision_function c X s = (Except.error Err.convError, s) := by
  simp [decision_function, hot, input_to_host_array_eq_error, hX]

lemma get_output_type_cases (est : Estimator) (X : Arr)
    (h : est.otErr = none) :
    est.get_output_type X =
      Except.ok (match est.pref with | .fixed t => t | .input => X.rep) := by
  cases hp : est.pref <;> simp [Estimator.get_output_type, h, hp]

lemma predict_ok_rep (c : OneVsOneClassifier Model) (X : Arr) (s : GState)
    (t : Rep) (hot : c.estimator.get_output_type X = Except.ok t)
    (q : Arr) (s1 : GState)
    (h : OneVsOneClassifier.predict c X s = (Except.ok q, s1)) :
    q.rep = t := by
  cases hX : X.rep.supported
  · rw [predict_eq_of_unsupported c X s t hot hX] at h
    simp at h
  · rw [predict_eq_of_ok c X s t hot hX] at h
    cases hw : c.wrapped_predict (toHost X) <;> rw [hw] at h <;> simp at h
    obtain ⟨h1, _⟩ := h
    rw [← h1]
    rfl

lemma decision_ok_rep (c : OneVsOneClassifier Model) (X : Arr) (s : GState)
    (t : Rep) (hot : c.estimator.get_output_type X = Except.ok t)
    (q : Arr) (s1 : GState)
    (h : OneVsOneClassifier.decision_function c X s = (Except.ok q, s1)) :
    q.rep = t := by
  cases hX : X.rep.supported
  · rw [decision_eq_of_unsupported c X s t hot hX] at h
    simp at h
  · rw [decision_eq_of_ok c X s t hot hX] at h
    cases hw : c.wrapped_decision (toHost X) <;> rw [hw] at h <;> simp at h
    obtain ⟨h1, _⟩ := h
    rw [← h1]
    rfl

end Lemmas

/-- C1: every array the adapter hands to the wrapped scikit-learn library
in `fit`, `predict` or `decision_function` has first been converted to the
canonical host (numpy) representation; the wrapped library never receives
an array in any other representation. -/
theorem delegated_arrays_are_host {Model : Type}
    (c : OneVsOneClassifier Model) (X y : Arr) (s : GState) :
    (∃ new, ((OneVsOneClassifier.fit c X y s).2).trace = new ++ s.trace ∧
      ∀ e ∈ new, ∀ a ∈ Event.args e, a.rep = Rep.numpy) ∧
    (∃ new, ((OneVsOneClassifier.predict c X s).2).trace = new ++ s.trace ∧
      ∀ e ∈ new, ∀ a ∈ Event.args e, a.rep = Rep.numpy) ∧
    (∃ new, ((OneVsOneClassifier.decision_function c X s).2).trace =
        new ++ s.trace ∧
      ∀ e ∈ new, ∀ a ∈ Event.args e, a.rep = Rep.numpy) := by
  refine ⟨?_, ?_, ?_⟩
  · cases hX : X.rep.supported
    · rw [fit_eq_of_X_unsupported c X y s hX]
      exact ⟨[], rfl, by simp⟩
    · cases hy : y.rep.supported
      · rw [fit_eq_of_y_unsupported c X y s hX hy]
        exact ⟨[], rfl, by simp⟩
      · rw [fit_eq_of_supported c X y s hX hy]
        refine ⟨[Event.fitCall (toHost X) (toHost y) Rep.numpy], rfl, ?_⟩
        simp [Event.args, toHost]
  · cases hot : c.estimator.get_output_type X with
    | error e =>
      rw [predict_eq_of_ot_error c X s e hot]
      exact ⟨[], rfl, by simp⟩
    | ok t =>
      cases hX : X.rep.supported
      · rw [predict_eq_of_unsupported c X s t hot hX]
        exact ⟨[], rfl, by simp⟩
      · rw [predict_eq_of_ok c X s t hot hX]
        refine ⟨[Event.predictCall (toHost X) s.outputType], rfl, ?_⟩
        simp [Event.args, toHost]
  · cases hot : c.estimator.get_output_type X with
    | error e =>
      rw [decision_eq_of_ot_error c X s e hot]
      exact ⟨[], rfl, by simp⟩
    | ok t =>
      cases hX : X.rep.supported
      · rw [decision_eq_of_unsupported c X s t hot hX]
        exact ⟨[], rfl, by simp⟩
      · rw [decision_eq_of_ok c X s t hot hX]
        refine ⟨[Event.decisionCall (toHost X) s.outputType], rfl, ?_⟩
        simp [Event.args, toHost]

/-- C4: the process-wide preferred-output-type setting holds, on exit from
`fit`, `predict` and `decision_function`, the exact value it held on
entry — on normal return and on every error path. -/
theorem output_type_restored {Model : Type}
    (c : OneVsOneClassifier Model) (X y : Arr) (s : GState) :
    ((OneVsOneClassifier.fit c X y s).2).outputType = s.outputType ∧
    ((OneVsOneClassifier.predict c X s).2).outputType = s.outputType ∧
    ((OneVsOneClassifier.decision_function c X s).2).outputType =
      s.outputType := by
  refine ⟨?_, ?_, ?_⟩
  · cases hX : X.rep.supported
    · rw [fit_eq_of_X_unsupported c X y s hX]
    · cases hy : y.rep.supported
      · rw [fit_eq_of_y_unsupported c X y s hX hy]
      · rw [fit_eq_of_supported c X y s hX hy]
  · cases hot : c.estimator.get_output_type X with
    | error e => rw [predict_eq_of_ot_error c X s e hot]
    | ok t =>
      cases hX : X.rep.supported
      · rw [predict_eq_of_unsupported c X s t hot hX]
      · rw [predict_eq_of_ok c X s t hot hX]
  · cases hot : c.estimator.get_output_type X with
    | error e => rw [decision_eq_of_ot_error c X s e hot]
    | ok t =>
      cases hX : X.rep.supported
      · rw [decision_eq_of_unsupported c X s t hot hX]
      · rw [decision_eq_of_ok c X s t hot hX]

/-- C5 (counterexample): the claim says every public operation sets the
process-wide output mode to the canonical one before delegating, but
`predict` delegates to the wrapped library while the ambient (here cupy)
mode is still in force. -/
theorem predict_delegates_under_ambient_mode :
    ((OneVsOneClassifier.predict testClfFitted
        { rep := Rep.numpy, data := [5] } s0).2).trace =
      [Event.predictCall { rep := Rep.numpy, data := [5] } Rep.cupy] ∧
    s0.outputType = Rep.cupy ∧ Rep.cupy ≠ Rep.numpy :=
  ⟨rfl, rfl, by decide⟩

/-- C5 (amended): `fit` delegates with the canonical (numpy) output mode
in force and restores the prior mode afterwards; `predict` and
`decision_function` set no mode of their own and delegate under whatever
mode the caller's environment holds. -/
theorem fit_scoped_canonical_mode {Model : Type}
    (c : OneVsOneClassifier Model) (X y : Arr) (s : GState) :
    (∃ new, ((OneVsOneClassifier.fit c X y s).2).trace = new ++ s.trace ∧
      ∀ e ∈ new, Event.mode e = Rep.numpy) ∧
    ((OneVsOneClassifier.fit c X y s).2).outputType = s.outputType ∧
    (∃ new, ((OneVsOneClassifier.predict c X s).2).trace = new ++ s.trace ∧
      ∀ e ∈ new, Event.mode e = s.outputType) ∧
    (∃ new, ((OneVsOneClassifier.decision_function c X s).2).trace =
        new ++ s.trace ∧
      ∀ e ∈ new, Event.mode e = s.outputType) := by
  refine ⟨?_, ?_, ?_, ?_⟩
  · cases hX : X.rep.supported
    · rw [fit_eq_of_X_unsupported c X y s hX]
      exact ⟨[], rfl, by simp⟩
    · cases hy : y.rep.supported
      · rw [fit_eq_of_y_unsupported c X y s hX hy]
        exact ⟨[], rfl, by simp⟩
      · rw [fit_eq_of_supported c X y s hX hy]
        refine ⟨[Event.fitCall (toHost X) (toHost y) Rep.numpy], rfl, ?_⟩
        simp [Event.mode]
  · cases hX : X.rep.supported
    · rw [fit_eq_of_X_unsupported c X y s hX]
    · cases hy : y.rep.supported
      · rw [fit_eq_of_y_unsupported c X y s hX hy]
      · rw [fit_eq_of_supported c X y s hX hy]
  · cases hot : c.estimator.get_output_type X with
    | error e =>
      rw [predict_eq_of_ot_error c X s e hot]
      exact ⟨[], rfl, by simp⟩
    | ok t =>
      cases hX : X.rep.supported
      · rw [predict_eq_of_unsupported c X s t hot hX]
        exact ⟨[], rfl, by simp⟩
      · rw [predict_eq_of_ok c X s t hot hX]
        refine ⟨[Event.predictCall (toHost X) s.outputType], rfl, ?_⟩
        simp [Event.mode]
  · cases hot : c.estimator.get_output_type X with
    | error e =>
      rw [decision_eq_of_ot_error c X s e hot]
      exact ⟨[], rfl, by simp⟩
    | ok t =>
      cases hX : X.rep.supported
      · rw [decision_eq_of_unsupported c X s t hot hX]
        exact ⟨[], rfl, by simp⟩
      · rw [decision_eq_of_ok c X s t hot hX]
        refine ⟨[Event.decisionCall (toHost X) s.outputType], rfl, ?_⟩
        simp [Event.mode]

/-- C10: when the estimator's output-type query raises, `predict` and
`decision_function` fail with that very error before any input conversion
and before delegating to the wrapped library, leaving the process-wide
state (its trace of wrapped-library invocations included) unchanged. -/
theorem output_type_error_leaves_state_unchanged {Model : Type}
    (c : OneVsOneClassifier Model) (X : Arr) (s : GState) (e : Err)
    (h : c.estimator.get_output_type X = Except.error e) :
    OneVsOneClassifier.predict c X s = (Except.error e, s) ∧
    OneVsOneClassifier.decision_function c X s = (Except.error e, s) :=
  ⟨predict_eq_of_ot_error c X s e h, decision_eq_of_ot_error c X s e h⟩

/-- Witness for C10 at a concrete fitted adapter whose estimator's
output-type query raises error code 7. -/
theorem output_type_error_leaves_state_unchanged_witness :
    testClfErr.estimator.get_output_type XC =
      Except.error (Err.otherError 7) ∧
    (OneVsOneClassifier.predict testClfErr XC s0 =
      (Except.error (Err.otherError 7), s0) ∧
     OneVsOneClassifier.decision_function testClfErr XC s0 =
      (Except.error (Err.otherError 7), s0)) :=
  ⟨rfl, output_type_error_leaves_state_unchanged testClfErr XC s0
    (Err.otherError 7) rfl⟩

/-- C3 (counterexample): the claim says the representation of `predict`'s
result is the fitted estimator's declared preference regardless of the
representation of the passed `X`; but with the stored preference set to
mirror the input, two calls that differ only in the representation of `X`
(same data, numpy versus cupy) return results with different
representations. -/
theorem predict_output_rep_depends_on_input_rep :
    (OneVsOneClassifier.predict testClfFitted
        { rep := Rep.numpy, data := [5] } s0).1 =
      Except.ok { rep := Rep.numpy, data := [5] } ∧
    (OneVsOneClassifier.predict testClfFitted
        { rep := Rep.cupy, data := [5] } s0).1 =
      Except.ok { rep := Rep.cupy, data := [5] } ∧
    Rep.numpy ≠ Rep.cupy :=
  ⟨rfl, rfl, by decide⟩

/-- C3 (amended): the representation of the array returned by `predict`
equals the estimator's output-type query evaluated on the passed `X`: the
declared fixed preference when one is set, otherwise the representation
of `X` itself; `decision_function` returns its scores under the same
rule. -/
theorem output_rep_eq_queried_output_type {Model : Type}
    (c : OneVsOneClassifier Model) (X : Arr) (s : GState) (t : Rep)
    (hot : c.estimator.get_output_type X = Except.ok t) :
    (∀ q s1, OneVsOneClassifier.predict c X s = (Except.ok q, s1) →
      q.rep = t) ∧
    (∀ q s1, OneVsOneClassifier.decision_function c X s =
        (Except.ok q, s1) → q.rep = t) :=
  ⟨fun q s1 h => predict_ok_rep c X s t hot q s1 h,
   fun q s1 h => decision_ok_rep c X s t hot q s1 h⟩

/-- Witness for the amended C3 at a concrete fitted adapter and a
cupy-resident input. -/
theorem output_rep_eq_queried_output_type_witness :
    testClfFitted.estimator.get_output_type XC = Except.ok Rep.cupy ∧
    ({ rep := Rep.cupy, data := [1, 2] } : Arr).rep = Rep.cupy :=
  ⟨rfl,
   (output_rep_eq_queried_output_type testClfFitted XC s0 Rep.cupy rfl).1
     { rep := Rep.cupy, data := [1, 2] }
     { outputType := Rep.cupy,
       trace := [Event.predictCall { rep := Rep.numpy, data := [1, 2] }
         Rep.cupy] }
     rfl⟩

/-- C9: when the wrapped estimator's output-type preference is
input-dependent (the "input" preference), `predict` and
`decision_function` apply the query to the caller's original, unconverted
`X`, so the returned result carries the representation the caller
supplied for `X`. -/
theorem output_type_queried_on_original_input {Model : Type}
    (c : OneVsOneClassifier Model) (X : Arr) (s : GState)
    (hpref : c.estimator.pref = Pref.input)
    (hne : c.estimator.otErr = none) :
    (∀ q s1, OneVsOneClassifier.predict c X s = (Except.ok q, s1) →
      q.rep = X.rep) ∧
    (∀ q s1, OneVsOneClassifier.decision_function c X s =
        (Except.ok q, s1) → q.rep = X.rep) := by
  have hot : c.estimator.get_output_type X = Except.ok X.rep := by
    rw [get_output_type_cases c.estimator X hne, hpref]
  exact ⟨fun q s1 h => predict_ok_rep c X s X.rep hot q s1 h,
    fun q s1 h => decision_ok_rep c X s X.rep hot q s1 h⟩

/-- Witness for C9 at a concrete fitted adapter with the "input"
preference, exercised through `decision_function` on a cupy array. -/
theorem output_type_queried_on_original_input_witness :
    testClfFitted.estimator.pref = Pref.input ∧
    testClfFitted.estimator.otErr = none ∧
    ({ rep := Rep.cupy, data := [1, 2] } : Arr).rep = XC.rep :=
  ⟨rfl, rfl,
   (output_type_queried_on_original_input testClfFitted XC s0 rfl rfl).2
     { rep := Rep.cupy, data := [1, 2] }
     { outputType := Rep.cupy,
       trace := [Event.decisionCall { rep := Rep.numpy, data := [1, 2] }
         Rep.cupy] }
     rfl⟩

/-- C8: converting a supported array to the canonical host representation
and converting the result straight back to the original representation
yields an array with the original's data (and its representation). -/
theorem round_trip_preserves_data (a : Arr)
    (r : Arr × Nat × Nat × Nat × Nat)
    (h : input_to_host_array a = Except.ok r) :
    (_to_output r.1 a.rep).data = a.data ∧
    (_to_output r.1 a.rep).rep = a.rep := by
  cases hs : a.rep.supported
  · rw [input_to_host_array_eq_error a hs] at h
    simp at h
  · rw [input_to_host_array_eq_ok a hs] at h
    obtain rfl : (toHost a, a.data.length, 1, 0, 0) = r := by
      injection h
    exact ⟨rfl, rfl⟩

/-- Witness for C8 at a concrete cupy array. -/
theorem round_trip_preserves_data_witness :
    input_to_host_array XC = Except.ok (toHost XC, 2, 1, 0, 0) ∧
    ((_to_output (toHost XC, 2, 1, 0, 0).1 XC.rep).data = XC.data ∧
     (_to_output (toHost XC, 2, 1, 0, 0).1 XC.rep).rep = XC.rep) :=
  ⟨rfl, round_trip_preserves_data XC (toHost XC, 2, 1, 0, 0) rfl⟩

/-- C7: whenever `fit` succeeds, its return value is the same classifier
instance it was called on — same wrapped library, same inner estimator —
now carrying the fitted model the wrapped training call produced, and it
is returned exactly as the wrapped call produced it, with no
output-representation conversion applied. -/
theorem fit_returns_same_instance {Model : Type}
    (c : OneVsOneClassifier Model) (X y : Arr) (s : GState)
    (c' : OneVsOneClassifier Model) (s1 : GState)
    (h : OneVsOneClassifier.fit c X y s = (Except.ok c', s1)) :
    ∃ m, c.lib.skFit (toHost X) (toHost y) = Except.ok m ∧
      c' = { c with model := some m } := by
  cases hX : X.rep.supported
  · rw [fit_eq_of_X_unsupported c X y s hX] at h
    simp at h
  · cases hy : y.rep.supported
    · rw [fit_eq_of_y_unsupported c X y s hX hy] at h
      simp at h
    · rw [fit_eq_of_supported c X y s hX hy] at h
      cases hsk : c.lib.skFit (toHost X) (toHost y) <;> rw [hsk] at h <;>
        simp at h
      exact ⟨_, rfl, h.1.symm⟩

/-- Witness for C7 at a concrete unfitted adapter and concrete device
inputs. -/
theorem fit_returns_same_instance_witness :
    OneVsOneClassifier.fit testClf XC yC s0 =
      (Except.ok testClfFitted, sFit) ∧
    ∃ m, testClf.lib.skFit (toHost XC) (toHost yC) = Except.ok m ∧
      testClfFitted = { testClf with model := some m } :=
  ⟨rfl, fit_returns_same_instance testClf XC yC s0 testClfFitted sFit rfl⟩

/-- C2: for inputs in any supported representations, fitting through the
adapter and then predicting through it on an input in any (other)
supported representation yields, when the wrapped library accepts the
host-converted data, predictions whose data equals what the wrapped
library produces when fitted and queried directly on the
host-representation inputs. -/
theorem fit_predict_refines_wrapped {Model : Type}
    (c : OneVsOneClassifier Model) (X y X2 : Arr) (s : GState)
    (m : Model) (p : Arr)
    (hX : X.rep.supported = true) (hy : y.rep.supported = true)
    (hX2 : X2.rep.supported = true)
    (hot : c.estimator.otErr = none)
    (hfit : c.lib.skFit (toHost X) (toHost y) = Except.ok m)
    (hpred : c.lib.skPredict m (toHost X2) = Except.ok p) :
    ∃ c' s1 q s2,
      OneVsOneClassifier.fit c X y s = (Except.ok c', s1) ∧
      OneVsOneClassifier.predict c' X2 s1 = (Except.ok q, s2) ∧
      q.data = p.data := by
  have h1 : OneVsOneClassifier.fit c X y s =
      (Except.ok { c with model := some m },
       { s with
          trace := Event.fitCall (toHost X) (toHost y) Rep.numpy ::
            s.trace }) := by
    rw [fit_eq_of_supported c X y s hX hy, hfit]
  have hot2 : ({ c with model := some m } :
        OneVsOneClassifier Model).estimator.get_output_type X2 =
      Except.ok
        (match c.estimator.pref with | .fixed u => u | .input => X2.rep) :=
    get_output_type_cases c.estimator X2 hot
  have hw : ({ c with model := some m } :
        OneVsOneClassifier Model).wrapped_predict (toHost X2) =
      Except.ok p := hpred
  have h2 : OneVsOneClassifier.predict { c with model := some m } X2
      { s with
         trace := Event.fitCall (toHost X) (toHost y) Rep.numpy ::
           s.trace } =
      (Except.ok (_to_output p
        (match c.estimator.pref with | .fixed u => u | .input => X2.rep)),
       { s with
          trace := Event.predictCall (toHost X2) s.outputType ::
            Event.fitCall (toHost X) (toHost y) Rep.numpy ::
            s.trace }) := by
    rw [predict_eq_of_ok { c with model := some m } X2
      { s with
         trace := Event.fitCall (toHost X) (toHost y) Rep.numpy ::
           s.trace }
      (match c.estimator.pref with | .fixed u => u | .input => X2.rep)
      hot2 hX2, hw]
  exact ⟨{ c with model := some m }, _, _, _, h1, h2, rfl⟩

/-- Witness for C2 at concrete device-resident fit inputs and a concrete
pandas-resident predict input. -/
theorem fit_predict_refines_wrapped_witness :
    XC.rep.supported = true ∧ yC.rep.supported = true ∧
    (Arr.rep { rep := Rep.pandas, data := [3] }).supported = true ∧
    testClf.estimator.otErr = none ∧
    testClf.lib.skFit (toHost XC) (toHost yC) = Except.ok 0 ∧
    testClf.lib.skPredict 0 (toHost { rep := Rep.pandas, data := [3] }) =
      Except.ok { rep := Rep.numpy, data := [3] } ∧
    ∃ c' s1 q s2,
      OneVsOneClassifier.fit testClf XC yC s0 = (Except.ok c', s1) ∧
      OneVsOneClassifier.predict c' { rep := Rep.pandas, data := [3] } s1 =
        (Except.ok q, s2) ∧
      q.data = (Arr.data { rep := Rep.numpy, data := [3] }) :=
  ⟨rfl, rfl, rfl, rfl, rfl, rfl,
   fit_predict_refines_wrapped testClf XC yC
     { rep := Rep.pandas, data := [3] } s0 0
     { rep := Rep.numpy, data := [3] } rfl rfl rfl rfl rfl rfl⟩

/-- C6: the adapter raises exactly when one of its collaborators raises,
and with that collaborator's own error: `fit` fails with `e` iff the
conversion of `X`, the conversion of `y` (after `X` converted), or the
wrapped training call (after both converted) fails with `e`; `predict`
and `decision_function` fail with `e` iff the output-type query, the
conversion of `X` (after the query succeeded), or the wrapped call (after
both succeeded) fails with `e`. -/
theorem errors_iff_collaborator_errors {Model : Type}
    (c : OneVsOneClassifier Model) (X y : Arr) (s : GState) (e : Err) :
    ((OneVsOneClassifier.fit c X y s).1 = Except.error e ↔
      input_to_host_array X = Except.error e ∨
      (convOk X ∧ input_to_host_array y = Except.error e) ∨
      (convOk X ∧ convOk y ∧
        c.lib.skFit (toHost X) (toHost y) = Except.error e)) ∧
    ((OneVsOneClassifier.predict c X s).1 = Except.error e ↔
      c.estimator.get_output_type X = Except.error e ∨
      ((∃ t, c.estimator.get_output_type X = Except.ok t) ∧
        input_to_host_array X = Except.error e) ∨
      ((∃ t, c.estimator.get_output_type X = Except.ok t) ∧ convOk X ∧
        c.wrapped_predict (toHost X) = Except.error e)) ∧
    ((OneVsOneClassifier.decision_function c X s).1 = Except.error e ↔
      c.estimator.get_output_type X = Except.error e ∨
      ((∃ t, c.estimator.get_output_type X = Except.ok t) ∧
        input_to_host_array X = Except.error e) ∨
      ((∃ t, c.estimator.get_output_type X = Except.ok t) ∧ convOk X ∧
        c.wrapped_decision (toHost X) = Except.error e)) := by
  refine ⟨?_, ?_, ?_⟩
  · cases hX : X.rep.supported
    · rw [fit_eq_of_X_unsupported c X y s hX]
      simp [convOk, input_to_host_array_eq_error, hX]
    · cases hy : y.rep.supported
      · rw [fit_eq_of_y_unsupported c X y s hX hy]
        simp [convOk, input_to_host_array_eq_error,
          input_to_host_array_eq_ok, hX, hy]
      · rw [fit_eq_of_supported c X y s hX hy]
        cases hsk : c.lib.skFit (toHost X) (toHost y) <;>
          simp [convOk, input_to_host_array_eq_ok, hX, hy, hsk]
  · cases hot : c.estimator.get_output_type X with
    | error eo =>
      rw [predict_eq_of_ot_error c X s eo hot]
      simp [hot]
    | ok t =>
      cases hX : X.rep.supported
      · rw [predict_eq_of_unsupported c X s t hot hX]
        simp [convOk, input_to_host_array_eq_error, hX, hot]
      · rw [predict_eq_of_ok c X s t hot hX]
        cases hw : c.wrapped_predict (toHost X) <;>
          simp [convOk, input_to_host_array_eq_ok, hX, hot, hw]
  · cases hot : c.estimator.get_output_type X with
    | error eo =>
      rw [decision_eq_of_ot_error c X s eo hot]
      simp [hot]
    | ok t =>
      cases hX : X.rep.supported
      · rw [decision_eq_of_unsupported c X s t hot hX]
        simp [convOk, input_to_host_array_eq_error, hX, hot]
      · rw [decision_eq_of_ok c X s t hot hX]
        cases hw : c.wrapped_decision (toHost X) <;>
          simp [convOk, input_to_host_array_eq_ok, hX, hot, hw]

end OneVsOne
